import Mathlib

/-!
Verification of the metrics/analytics core of the docker-manage repository
(`dashboard/metrics.py`, `dashboard/analytics.py`).

Shallow embedding conventions:
* timestamps are integers counting minutes (Python `datetime`/`timedelta`
  arithmetic on whole minutes is exact, so this is faithful for the values
  the claims exercise);
* numeric field values are rationals (`ℚ`), standing for Python numbers;
* Python exceptions are modelled with `Option`/`Except`: `none`/`.error`
  means the corresponding Python call raised;
* Python dicts of tags/fields are association lists whose keys are unique,
  and dict containment (`tags__contains={k: v}`) is `List.lookup k = some v`.
-/

namespace Dashboard

/-- One element of the list returned by `MetricsCollector._query_database`:
a dict `{'timestamp': ..., 'value': ..., 'field': ..., 'tags': ...}`
(metrics.py lines 505-513). -/
structure Row where
  timestamp : ℤ
  value : ℚ
  field : String
  tags : List (String × String)
  deriving DecidableEq, Repr

/-- One stored `Metric` model row (dashboard/models.py): `measurement`,
`tags` (JSON dict), `fields` (JSON dict of numbers), `timestamp`. -/
structure MetricRec where
  measurement : String
  tags : List (String × String)
  fields : List (String × ℚ)
  timestamp : ℤ
  deriving DecidableEq, Repr

/-- One aggregation bucket emitted by `AnalyticsEngine._get_aggregated_metrics`
(analytics.py lines 243-249): `{'timestamp': bucket start, 'value': mean,
'min': ..., 'max': ..., 'count': ...}`. -/
structure Bucket where
  timestamp : ℤ
  value : ℚ
  min : ℚ
  max : ℚ
  count : ℕ
  deriving DecidableEq, Repr

/-- Python `min(values)` as used in analytics.py with the `if values else 0`
guard (line 246): 0 on the empty list. -/
def listMin : List ℚ → ℚ
  | [] => 0
  | v :: vs => vs.foldl min v

/-- Python `max(values)` with the `if values else 0` guard (line 247). -/
def listMax : List ℚ → ℚ
  | [] => 0
  | v :: vs => vs.foldl max v

/-- Python `statistics.mean(values)` with the `if values else 0` guard
(line 245): sum divided by length. -/
def listMean (vs : List ℚ) : ℚ :=
  if vs.isEmpty then 0 else vs.sum / (vs.length : ℚ)

/-- Python `str.endswith` with a single-character suffix, expressed on the
character list: the last character equals the suffix (false on `""`). -/
def strEndsWith (s : String) (c : Char) : Bool :=
  s.data.getLast? == some c

/-- Python `s[:-1]`: every character but the last. -/
def strDropLast (s : String) : List Char :=
  s.data.dropLast

/-- Python `int(s)` on the numeric prefix of a duration token: optional
sign followed by decimal digits; `none` models the `ValueError` raised on
anything else (underscore/whitespace forms of `int` are not exercised by
any caller of this code). -/
def digitsToNat : List Char → Option ℕ
  | [] => none
  | cs =>
    cs.foldl
      (fun acc c =>
        acc.bind (fun n => if c.isDigit then some (10 * n + (c.toNat - 48)) else none))
      (some 0)

/-- Signed integer literal parser for Python `int(...)`. -/
def pyInt (cs : List Char) : Option ℤ :=
  match cs with
  | '-' :: rest => (digitsToNat rest).map (fun n => -(n : ℤ))
  | '+' :: rest => (digitsToNat rest).map (fun n => (n : ℤ))
  | cs => (digitsToNat cs).map (fun n => (n : ℤ))

/-- `AnalyticsEngine._parse_time_range` (analytics.py lines 182-199),
returning the window length in minutes (`end_time - start_time`); `none`
models the `ValueError` escaping from `int(time_range[:-1])`. -/
def parseTimeRange (timeRange : String) : Option ℤ :=
  if strEndsWith timeRange 'h' then
    (pyInt (strDropLast timeRange)).map (fun n => n * 60)
  else if strEndsWith timeRange 'd' then
    (pyInt (strDropLast timeRange)).map (fun n => n * 1440)
  else if strEndsWith timeRange 'w' then
    (pyInt (strDropLast timeRange)).map (fun n => n * 10080)
  else
    some 1440

/-- Granularity parsing inside `AnalyticsEngine._get_aggregated_metrics`
(analytics.py lines 217-225), returning the bucket interval in minutes;
`none` models the `ValueError` escaping from `int(granularity[:-1])`. -/
def parseGranularity (granularity : String) : Option ℤ :=
  if strEndsWith granularity 'm' then
    pyInt (strDropLast granularity)
  else if strEndsWith granularity 'h' then
    (pyInt (strDropLast granularity)).map (fun n => n * 60)
  else
    some 5

/-- The raw points falling in the bucket `[t, t + interval)`
(analytics.py lines 235-238). -/
def intervalRows (raw : List Row) (t interval : ℤ) : List Row :=
  raw.filter (fun p => decide (t ≤ p.timestamp ∧ p.timestamp < t + interval))

/-- The aggregated dict appended for a non-empty bucket
(analytics.py lines 242-249). -/
def mkBucket (t : ℤ) (pts : List Row) : Bucket :=
  let values := pts.map Row.value
  { timestamp := t
    value := listMean values
    min := listMin values
    max := listMax values
    count := values.length }

/-- The `while current_time < end_time` aggregation loop
(analytics.py lines 228-251), expressed with a fuel argument; the loop
advances by `interval` each turn, so the `(endT - startT).toNat` turns
passed by `aggregateAt` always suffice when `0 < interval`
(`mem_aggLoop_of` below proves every bucket the loop would emit is
reached within that fuel). -/
def aggLoop (raw : List Row) (interval : ℤ) : ℕ → ℤ → ℤ → List Bucket
  | 0, _, _ => []
  | fuel + 1, cur, endT =>
    if cur < endT then
      (let pts := intervalRows raw cur interval
       if pts.isEmpty then [] else [mkBucket cur pts]) ++
        aggLoop raw interval fuel (cur + interval) endT
    else []

/-- The aggregation loop run over `[startT, endT)` with a fixed interval. -/
def aggregateAt (raw : List Row) (interval startT endT : ℤ) : List Bucket :=
  aggLoop raw interval (endT - startT).toNat startT endT

/-- `AnalyticsEngine._get_aggregated_metrics` (analytics.py lines 201-256)
given the raw query result: early `[]` when no raw data, then lenient
granularity parsing and the bucket loop.  The 5-minute cache
(lines 205-209, 254) only memoises this pure computation and is omitted. -/
def getAggregatedMetrics (raw : List Row) (startT endT : ℤ) (granularity : String) :
    Option (List Bucket) :=
  if raw.isEmpty then some [] else
  (parseGranularity granularity).map (fun interval => aggregateAt raw interval startT endT)

/-- Stable insertion of a metric into a timestamp-sorted list; together with
`sortByTs` this models the SQL `order_by('timestamp')` of metrics.py
line 503 (a stable ascending sort). -/
def insertByTs (m : MetricRec) : List MetricRec → List MetricRec
  | [] => [m]
  | x :: xs => if m.timestamp < x.timestamp then m :: x :: xs else x :: insertByTs m xs

/-- Stable ascending sort by timestamp (models `order_by('timestamp')`). -/
def sortByTs (l : List MetricRec) : List MetricRec :=
  l.foldr insertByTs []

/-- The chain of `queryset.filter(tags__contains={tag_key: tag_value})`
calls (metrics.py lines 499-501): JSON-dict containment of every filter
pair.  When the filter is empty no `filter` call is made, which is the
same as `List.all [] = true`. -/
def tagMatch (tags filt : List (String × String)) : Bool :=
  filt.all (fun kv => tags.lookup kv.1 == some kv.2)

/-- `MetricsCollector._query_database` (metrics.py lines 487-519):
measurement equality, inclusive `timestamp__gte`/`timestamp__lte` range,
tag containment, ascending order, then one output row per stored field. -/
def queryDatabase (db : List MetricRec) (measurement : String)
    (tags : List (String × String)) (startT endT : ℤ) : List Row :=
  let qs := db.filter (fun m =>
    m.measurement == measurement &&
      decide (startT ≤ m.timestamp) && decide (m.timestamp ≤ endT))
  let qs := qs.filter (fun m => tagMatch m.tags tags)
  (sortByTs qs).flatMap (fun m =>
    m.fields.map (fun fv =>
      { timestamp := m.timestamp, value := fv.2, field := fv.1, tags := m.tags }))

/-- Result of `AnalyticsEngine._calculate_trends` (analytics.py lines
308-344): either the `{'trend': 'insufficient_data'}` marker or the full
statistics dict.  The `std_dev` entry (a real square root never read by
the properties under check) is omitted from the embedding. -/
inductive TrendResult where
  | insufficientData : TrendResult
  | stats (trend : String) (slope current average vmin vmax : ℚ) : TrendResult
  deriving DecidableEq, Repr

/-- The `'trend'` entry of a `_calculate_trends` result. -/
def TrendResult.direction : TrendResult → String
  | .insufficientData => "insufficient_data"
  | .stats t _ _ _ _ _ => t

/-- The slope computed by `_calculate_trends` (analytics.py lines 315-326)
on the value series: least-squares numerator/denominator against the
indices `0, …, n-1`, with the `if denominator != 0 else 0` guard. -/
def trendSlope (values : List ℚ) : ℚ :=
  let n := values.length
  let xs := (List.range n).map (fun i : ℕ => (i : ℚ))
  let xMean := xs.sum / (n : ℚ)
  let yMean := values.sum / (n : ℚ)
  let numerator := ((xs.zip values).map (fun p => (p.1 - xMean) * (p.2 - yMean))).sum
  let denominator := (xs.map (fun x => (x - xMean) ^ 2)).sum
  if denominator ≠ 0 then numerator / denominator else 0

/-- Modelled from the spec: the ordinary-least-squares slope of the values
against their ordinal indices `0, …, n-1` (spec §4.3 "ordinary-least-squares
slope of value against bucket ordinal index"), without the implementation's
zero-denominator guard. -/
def olsSlope (values : List ℚ) : ℚ :=
  let n := values.length
  let xs := (List.range n).map (fun i : ℕ => (i : ℚ))
  let xMean := xs.sum / (n : ℚ)
  let yMean := values.sum / (n : ℚ)
  ((xs.zip values).map (fun p => (p.1 - xMean) * (p.2 - yMean))).sum /
    (xs.map (fun x => (x - xMean) ^ 2)).sum

/-- `AnalyticsEngine._calculate_trends` (analytics.py lines 308-344) on the
series of `point['value']` entries (the only part of each point the
function reads). -/
def calculateTrends (values : List ℚ) : TrendResult :=
  if values.length < 2 then .insufficientData else
  let slope := trendSlope values
  let trend :=
    if slope > 1 / 10 then "increasing"
    else if slope < -(1 / 10) then "decreasing"
    else "stable"
  .stats trend slope (values.getLast?.getD 0) (values.sum / (values.length : ℚ))
    (listMin values) (listMax values)

/-- One prediction dict of `AnalyticsEngine._calculate_predictions`
(analytics.py lines 418-422); the timestamp is `last + i` hours, i.e.
`last + 60 * i` in the embedding's minutes. -/
structure Prediction where
  timestamp : ℤ
  predicted_value : ℚ
  confidence : ℚ
  deriving DecidableEq, Repr

/-- The trailing window length `min(10, n // 2)` of
`_calculate_predictions` (analytics.py line 407). -/
def predWindowSize (n : ℕ) : ℕ :=
  min 10 (n / 2)

/-- The per-step delta `(recent_values[-1] - recent_values[0]) / window_size`
of `_calculate_predictions` (analytics.py lines 408-409). -/
def predDelta (values : List ℚ) : ℚ :=
  let w := predWindowSize values.length
  let recent := values.drop (values.length - w)
  (recent.getLast?.getD 0 - recent.head?.getD 0) / (w : ℚ)

/-- `AnalyticsEngine._calculate_predictions` (analytics.py lines 398-424)
over `(timestamp, value)` pairs: empty under 5 samples, else 24 linear
extrapolation steps with non-negative clamping and decaying confidence. -/
def calculatePredictions (data : List (ℤ × ℚ)) : List Prediction :=
  if data.length < 5 then [] else
  let values := data.map Prod.snd
  let n := values.length
  let windowSize := predWindowSize n
  let recent := values.drop (n - windowSize)
  let trend := (recent.getLast?.getD 0 - recent.head?.getD 0) / (windowSize : ℚ)
  let lastTimestamp := (data.getLast?.getD (0, 0)).1
  (List.range 24).map (fun j =>
    let i : ℕ := j + 1
    { timestamp := lastTimestamp + 60 * (i : ℤ)
      predicted_value := max 0 (recent.getLast?.getD 0 + trend * (i : ℚ))
      confidence := max (1 / 10) (1 - (i : ℚ) * (1 / 20)) })

/-- The stats dict of `AnalyticsEngine._calculate_service_performance`
(analytics.py lines 346-372). -/
structure ServiceStats where
  uptime_percentage : ℚ
  avg_replicas : ℚ
  replica_stability : String
  performance_score : ℚ
  deriving DecidableEq, Repr

/-- Sample variance `sum((v - mean)^2) / (n - 1)`, the square of Python's
`statistics.stdev`; the code only compares `stdev > 1`, which is
equivalent to `variance > 1`, so the embedding stays in `ℚ`. -/
def sampleVariance (vs : List ℚ) : ℚ :=
  let m := vs.sum / (vs.length : ℚ)
  ((vs.map (fun v => (v - m) ^ 2)).sum) / ((vs.length : ℚ) - 1)

/-- `AnalyticsEngine._calculate_service_performance` (analytics.py lines
346-372) on the bucket series for replicas and health: uptime is the mean
of bucket values times 100, stability flips to `unstable` when the sample
standard deviation of replica values exceeds 1 (encoded via the variance),
and the score is the bounded composite of line 370. -/
def calculateServicePerformance (replicaData healthData : List Bucket) : ServiceStats :=
  let healthyValues := healthData.map Bucket.value
  let uptime :=
    if healthData.isEmpty then 0
    else (healthyValues.sum / (healthyValues.length : ℚ)) * 100
  let replicaValues := replicaData.map Bucket.value
  let avgReplicas :=
    if replicaData.isEmpty then 0 else replicaValues.sum / (replicaValues.length : ℚ)
  let stability :=
    if replicaData.isEmpty then "stable"
    else if 1 < replicaValues.length ∧ 1 < sampleVariance replicaValues then "unstable"
    else "stable"
  let score := min 100 ((uptime + (if stability = "stable" then 100 else 50)) / 2)
  { uptime_percentage := uptime
    avg_replicas := avgReplicas
    replica_stability := stability
    performance_score := score }

/-- The uptime computation of `MetricsCollector.get_service_metrics_summary`
(metrics.py lines 566-574): mean of the raw `healthy` field values times
100 (0 when there are none). -/
def summaryUptime (healthRows : List Row) : ℚ :=
  let healthyValues := (healthRows.filter (fun d => d.field == "healthy")).map Row.value
  if healthyValues.isEmpty then 0
  else (healthyValues.sum / (healthyValues.length : ℚ)) * 100

/-- Rendering of the `tags` dict cell in a CSV row, Python `str(dict)`
up to quoting detail (never inspected by the properties under check). -/
def tagsToStr (tags : List (String × String)) : String :=
  "\x7b" ++ String.intercalate ", " (tags.map (fun kv => kv.1 ++ ": " ++ kv.2)) ++ "\x7d"

/-- The `str(row.get(header, ''))` cells of one CSV data line for a
`_query_database` row, whose dict keys are, in insertion order,
`timestamp`, `value`, `field`, `tags` (metrics.py lines 508-513). -/
def rowCells (r : Row) : List String :=
  [toString r.timestamp, toString r.value, r.field, tagsToStr r.tags]

/-- The lines of `AnalyticsEngine._format_as_csv` (analytics.py lines
520-531): header row of the first record's keys, then one positional row
per record. -/
def csvLines (data : List Row) : List String :=
  if data.isEmpty then [] else
  String.intercalate "," ["timestamp", "value", "field", "tags"] ::
    data.map (fun r => String.intercalate "," (rowCells r))

/-- `AnalyticsEngine._format_as_csv` (analytics.py lines 520-531):
`""` on no data, else the newline-joined lines. -/
def formatAsCsv (data : List Row) : String :=
  if data.isEmpty then "" else String.intercalate "\n" (csvLines data)

/-- Storage backend selection of `MetricsCollector` (metrics.py line 31). -/
inductive BackendKind where
  | database
  | influxdb
  | prometheus
  deriving DecidableEq, Repr

/-- Return value of `MetricsCollector.collect_metrics`
(metrics.py lines 135-139). -/
structure CollectResult where
  success : Bool
  metrics_collected : ℕ
  deriving DecidableEq, Repr

/-- `MetricsCollector._store_to_database` (metrics.py lines 408-429): the
underlying `bulk_create` call is a parameter that may raise; the
`try/except` swallows and logs any error, so the method always returns
normally. -/
def storeToDatabase (bulkCreate : List MetricRec → Except String Unit)
    (metrics : List MetricRec) : Except String Unit :=
  match bulkCreate metrics with
  | .ok _ => .ok ()
  | .error _ => .ok ()

/-- `MetricsCollector._store_to_influxdb` (metrics.py lines 316-345): same
swallowing `try/except` around the backend write. -/
def storeToInfluxdb (write : List MetricRec → Except String Unit)
    (metrics : List MetricRec) : Except String Unit :=
  match write metrics with
  | .ok _ => .ok ()
  | .error _ => .ok ()

/-- `MetricsCollector._store_to_prometheus` (metrics.py lines 347-406):
same swallowing `try/except` around the gauge updates and gateway push. -/
def storeToPrometheus (push : List MetricRec → List MetricRec → List MetricRec → Except String Unit)
    (systemMetrics serviceMetrics nodeMetrics : List MetricRec) : Except String Unit :=
  match push systemMetrics serviceMetrics nodeMetrics with
  | .ok _ => .ok ()
  | .error _ => .ok ()

/-- `MetricsCollector.collect_metrics` (metrics.py lines 111-147): the
three sub-collections (which swallow their own errors and here arrive as
already-collected lists), the backend-dispatched store, and the success
summary counting the collected points.  `.error` would model the outer
`except` branch returning `success: False`; since every store method
swallows its exceptions, it is never taken. -/
def collectMetrics (backend : BackendKind)
    (systemMetrics serviceMetrics nodeMetrics : List MetricRec)
    (bulkCreate : List MetricRec → Except String Unit)
    (influxWrite : List MetricRec → Except String Unit)
    (promPush : List MetricRec → List MetricRec → List MetricRec → Except String Unit) :
    Except String CollectResult := do
  let allMetrics := systemMetrics ++ serviceMetrics ++ nodeMetrics
  match backend with
  | .influxdb => storeToInfluxdb influxWrite allMetrics
  | .prometheus => storeToPrometheus promPush systemMetrics serviceMetrics nodeMetrics
  | .database => storeToDatabase bulkCreate allMetrics
  return { success := true, metrics_collected := allMetrics.length }

/-! ### Lemmas about the aggregation loop -/

theorem mkBucket_timestamp (t : ℤ) (pts : List Row) : (mkBucket t pts).timestamp = t := rfl

/-- Every bucket produced by the loop sits on the bucket grid `cur + i·I`,
strictly below `endT`, is built from the non-empty set of raw points of
its interval, and carries exactly the aggregated statistics of them. -/
theorem exists_of_mem_aggLoop (raw : List Row) (I : ℤ) :
    ∀ (n : ℕ) (cur endT : ℤ) (b : Bucket), b ∈ aggLoop raw I n cur endT →
      ∃ i : ℕ, cur + (i : ℤ) * I < endT ∧ intervalRows raw (cur + (i : ℤ) * I) I ≠ [] ∧
        b = mkBucket (cur + (i : ℤ) * I) (intervalRows raw (cur + (i : ℤ) * I) I) := by
  intro n
  induction n with
  | zero => intro cur endT b hb; simp [aggLoop] at hb
  | succ n ih =>
    intro cur endT b hb
    simp only [aggLoop] at hb
    by_cases h : cur < endT
    · rw [if_pos h] at hb
      rcases List.mem_append.mp hb with h1 | h2
      · by_cases hpts : (intervalRows raw cur I).isEmpty
        · simp [hpts] at h1
        · simp only [if_neg hpts, List.mem_singleton] at h1
          refine ⟨0, by simpa using h, ?_, by simpa using h1⟩
          simpa [List.isEmpty_iff] using hpts
      · obtain ⟨i, hi1, hi2, hi3⟩ := ih (cur + I) endT b h2
        have hcast : cur + ((i : ℤ) + 1) * I = cur + I + (i : ℤ) * I := by ring
        refine ⟨i + 1, ?_, ?_, ?_⟩ <;>
          simp only [Nat.cast_add, Nat.cast_one, hcast]
        · exact hi1
        · exact hi2
        · exact hi3
    · rw [if_neg h] at hb; simp at hb

/-- Completeness of the loop: with enough fuel (which `aggregateAt`
provides) every non-empty grid bucket below `endT` is emitted. -/
theorem mem_aggLoop_of (raw : List Row) (I : ℤ) (hI : 0 < I) :
    ∀ (n : ℕ) (cur endT : ℤ), (endT - cur).toNat ≤ n →
      ∀ i : ℕ, cur + (i : ℤ) * I < endT → intervalRows raw (cur + (i : ℤ) * I) I ≠ [] →
        mkBucket (cur + (i : ℤ) * I) (intervalRows raw (cur + (i : ℤ) * I) I) ∈
          aggLoop raw I n cur endT := by
  intro n
  induction n with
  | zero =>
    intro cur endT hn i hi _
    have hiI : 0 ≤ (i : ℤ) * I := mul_nonneg (Int.ofNat_nonneg i) hI.le
    omega
  | succ n ih =>
    intro cur endT hn i hi hne
    have hiI : 0 ≤ (i : ℤ) * I := mul_nonneg (Int.ofNat_nonneg i) hI.le
    have hcur : cur < endT := by omega
    simp only [aggLoop, if_pos hcur]
    cases i with
    | zero =>
      apply List.mem_append_left
      have hne' : (intervalRows raw cur I).isEmpty = false := by
        simpa using List.isEmpty_eq_false_iff_exists_mem.mpr
          (List.exists_mem_of_ne_nil _ (by simpa using hne))
      simp only [hne', if_neg (by simp : ¬ (false = true))]
      simp
    | succ i =>
      apply List.mem_append_right
      have hcast : cur + ((i : ℤ) + 1) * I = cur + I + (i : ℤ) * I := by ring
      have hfuel : (endT - (cur + I)).toNat ≤ n := by omega
      have := ih (cur + I) endT hfuel i
        (by rw [← hcast]; simpa using hi)
        (by rw [← hcast]; simpa using hne)
      simpa only [← hcast, Nat.cast_add, Nat.cast_one] using this

/-- The buckets emitted by the loop are pairwise grid-separated: a later
bucket starts a positive multiple of the interval after an earlier one. -/
theorem aggLoop_grid_pairwise (raw : List Row) (I : ℤ) :
    ∀ (n : ℕ) (cur endT : ℤ),
      (aggLoop raw I n cur endT).Pairwise
        (fun a b => ∃ k : ℕ, 1 ≤ k ∧ b.timestamp = a.timestamp + (k : ℤ) * I) := by
  intro n
  induction n with
  | zero => intro cur endT; simp [aggLoop]
  | succ n ih =>
    intro cur endT
    simp only [aggLoop]
    by_cases h : cur < endT
    · rw [if_pos h]
      apply List.pairwise_append.mpr
      refine ⟨?_, ih (cur + I) endT, ?_⟩
      · by_cases hpts : (intervalRows raw cur I).isEmpty <;> simp [hpts]
      · intro a ha b hb
        have ha' : a = mkBucket cur (intervalRows raw cur I) := by
          by_cases hpts : (intervalRows raw cur I).isEmpty
          · simp [hpts] at ha
          · simpa [hpts] using ha
        obtain ⟨i, _, _, hb'⟩ := exists_of_mem_aggLoop raw I n (cur + I) endT b hb
        refine ⟨i + 1, by omega, ?_⟩
        rw [ha', hb', mkBucket_timestamp, mkBucket_timestamp]
        push_cast
        ring
    · rw [if_neg h]; exact List.Pairwise.nil

/-- Buckets are emitted in strictly ascending timestamp order. -/
theorem aggLoop_sorted (raw : List Row) (I : ℤ) (hI : 0 < I) (n : ℕ) (cur endT : ℤ) :
    (aggLoop raw I n cur endT).Pairwise (fun a b => a.timestamp < b.timestamp) := by
  refine (aggLoop_grid_pairwise raw I n cur endT).imp ?_
  rintro a b ⟨k, hk, hts⟩
  have : (1 : ℤ) * I ≤ (k : ℤ) * I :=
    mul_le_mul_of_nonneg_right (by exact_mod_cast hk) hI.le
  rw [hts]; linarith

/-- Any non-negative offset lands in exactly one grid cell: there is an
index `i` with `i·I ≤ d < (i+1)·I`. -/
theorem exists_grid_index (I : ℤ) (hI : 0 < I) (d : ℤ) (hd : 0 ≤ d) :
    ∃ i : ℕ, (i : ℤ) * I ≤ d ∧ d < ((i : ℤ) + 1) * I := by
  obtain ⟨n, rfl⟩ : ∃ n : ℕ, d = (n : ℤ) := ⟨d.toNat, (Int.toNat_of_nonneg hd).symm⟩
  clear hd
  induction n using Nat.strong_induction_on with
  | _ n ih =>
    by_cases h : (n : ℤ) < I
    · exact ⟨0, by simp, by simpa using h⟩
    · push_neg at h
      have hItoNat : (I.toNat : ℤ) = I := Int.toNat_of_nonneg hI.le
      have hIn : I.toNat ≤ n := by omega
      have hlt : n - I.toNat < n := by omega
      obtain ⟨i, h1, h2⟩ := ih (n - I.toNat) hlt
      have hcast : ((n - I.toNat : ℕ) : ℤ) = (n : ℤ) - I := by
        push_cast [hIn]; omega
      rw [hcast] at h1 h2
      refine ⟨i + 1, ?_, ?_⟩ <;> push_cast <;> nlinarith

/-! ### Claim theorems -/

/-- C1: `_get_aggregated_metrics` partitions `[start_time, end_time)` into
consecutive buckets of the parsed granularity: every emitted bucket starts
on the grid `start + i·interval` below `end_time` and carries the mean,
min, max and count of the raw points of `[bucket_start, bucket_start +
interval)`; empty buckets are omitted; every raw point of the requested
range is assigned to exactly one emitted bucket by
`bucket_start ≤ timestamp < bucket_start + interval`; and the output is
ascending in bucket start. -/
theorem aggregated_metrics_correct (raw : List Row) (startT endT : ℤ)
    (granularity : String) (I : ℤ) (hg : parseGranularity granularity = some I)
    (hI : 0 < I) (hraw : raw ≠ []) :
    ∃ out, getAggregatedMetrics raw startT endT granularity = some out ∧
      (∀ b ∈ out, ∃ i : ℕ, b.timestamp = startT + (i : ℤ) * I ∧ b.timestamp < endT ∧
        intervalRows raw b.timestamp I ≠ [] ∧
        b.value = listMean ((intervalRows raw b.timestamp I).map Row.value) ∧
        b.min = listMin ((intervalRows raw b.timestamp I).map Row.value) ∧
        b.max = listMax ((intervalRows raw b.timestamp I).map Row.value) ∧
        b.count = (intervalRows raw b.timestamp I).length) ∧
      (∀ p ∈ raw, startT ≤ p.timestamp → p.timestamp < endT →
        ∃ b, (b ∈ out ∧ b.timestamp ≤ p.timestamp ∧ p.timestamp < b.timestamp + I) ∧
          ∀ b' , (b' ∈ out ∧ b'.timestamp ≤ p.timestamp ∧ p.timestamp < b'.timestamp + I) →
            b' = b) ∧
      out.Pairwise (fun a b => a.timestamp < b.timestamp) := by
  have hempty : raw.isEmpty = false := by
    cases raw with
    | nil => exact absurd rfl hraw
    | cons a l => rfl
  refine ⟨aggregateAt raw I startT endT, ?_, ?_, ?_, ?_⟩
  · simp [getAggregatedMetrics, hempty, hg]
  · intro b hb
    obtain ⟨i, hi1, hi2, hi3⟩ := exists_of_mem_aggLoop raw I _ startT endT b hb
    have hts : b.timestamp = startT + (i : ℤ) * I := by rw [hi3, mkBucket_timestamp]
    refine ⟨i, hts, by omega, by rw [hts]; exact hi2, ?_, ?_, ?_, ?_⟩ <;>
      rw [hts, hi3] <;> simp [mkBucket]
  · intro p hp hp1 hp2
    obtain ⟨i, hgi1, hgi2⟩ :=
      exists_grid_index I hI (p.timestamp - startT) (by omega)
    have hmemi : p ∈ intervalRows raw (startT + (i : ℤ) * I) I := by
      simp only [intervalRows, List.mem_filter, decide_eq_true_eq]
      refine ⟨hp, by omega, by nlinarith⟩
    have hlt : startT + (i : ℤ) * I < endT := by
      have : startT + (i : ℤ) * I ≤ p.timestamp := by omega
      omega
    have hne : intervalRows raw (startT + (i : ℤ) * I) I ≠ [] :=
      List.ne_nil_of_mem hmemi
    have hbmem := mem_aggLoop_of raw I hI _ startT endT (le_refl _) i hlt hne
    refine ⟨mkBucket (startT + (i : ℤ) * I) (intervalRows raw (startT + (i : ℤ) * I) I),
      ⟨hbmem, ?_, ?_⟩, ?_⟩
    · rw [mkBucket_timestamp]; omega
    · rw [mkBucket_timestamp]; nlinarith
    · rintro b' ⟨hb'mem, hb'1, hb'2⟩
      obtain ⟨j, hj1, hj2, hj3⟩ := exists_of_mem_aggLoop raw I _ startT endT b' hb'mem
      have hts' : b'.timestamp = startT + (j : ℤ) * I := by rw [hj3, mkBucket_timestamp]
      have hij : i = j := by
        rcases Nat.lt_trichotomy i j with hlt' | heq | hgt
        · exfalso
          have h1 : ((i : ℤ) + 1) ≤ (j : ℤ) := by exact_mod_cast hlt'
          have h2 : ((i : ℤ) + 1) * I ≤ (j : ℤ) * I :=
            mul_le_mul_of_nonneg_right h1 hI.le
          rw [hts'] at hb'1
          nlinarith
        · exact heq
        · exfalso
          have h1 : ((j : ℤ) + 1) ≤ (i : ℤ) := by exact_mod_cast hgt
          have h2 : ((j : ℤ) + 1) * I ≤ (i : ℤ) * I :=
            mul_le_mul_of_nonneg_right h1 hI.le
          rw [hts'] at hb'2
          nlinarith
      rw [hj3, hij]
  · exact aggLoop_sorted raw I hI _ startT endT

/-- Witness for C1 at a concrete input. -/
theorem aggregated_metrics_correct_witness :
    ∃ out, getAggregatedMetrics [({ timestamp := 0, value := 3, field := "v", tags := [] } : Row)]
        0 10 "5m" = some out ∧
      out.Pairwise (fun a b => a.timestamp < b.timestamp) := by
  obtain ⟨out, h1, -, -, h4⟩ :=
    aggregated_metrics_correct [⟨0, 3, "v", []⟩] 0 10 "5m" 5 rfl (by decide) (by simp)
  exact ⟨out, h1, h4⟩

/-- C2 (corrected): because empty buckets are dropped, two adjacent buckets
of the returned sequence need not be one interval apart; what holds is that
the later one starts a positive multiple `k ≥ 1` of the interval after the
earlier one (`k = 1` exactly when no intermediate bucket was dropped). -/
theorem aggregated_adjacent_grid_step (raw : List Row) (I startT endT : ℤ) :
    (aggregateAt raw I startT endT).Chain'
      (fun a b => ∃ k : ℕ, 1 ≤ k ∧ b.timestamp = a.timestamp + (k : ℤ) * I) :=
  (aggLoop_grid_pairwise raw I _ startT endT).chain'

/-- Counterexample to C2 as stated: two raw points at minutes 0 and 10,
aggregated over `[0, 15)` with a 5-minute interval, produce adjacent
buckets starting at 0 and 10 — the intermediate empty bucket at 5 is
dropped, so `next.timestamp = prev.timestamp + interval` fails. -/
theorem aggregated_adjacent_counterexample :
    (aggregateAt [({ timestamp := 0, value := 1, field := "v", tags := [] } : Row),
        { timestamp := 10, value := 1, field := "v", tags := [] }] 5 0 15).map
      Bucket.timestamp = [0, 10] ∧
    ¬ (aggregateAt [({ timestamp := 0, value := 1, field := "v", tags := [] } : Row),
        { timestamp := 10, value := 1, field := "v", tags := [] }] 5 0 15).Chain'
      (fun a b => b.timestamp = a.timestamp + 5) := by
  have h : (aggregateAt [({ timestamp := 0, value := 1, field := "v", tags := [] } : Row),
      { timestamp := 10, value := 1, field := "v", tags := [] }] 5 0 15).map
        Bucket.timestamp = [0, 10] := rfl
  refine ⟨h, fun hc => ?_⟩
  have h2 := (@List.chain'_map ℤ Bucket (fun x y => y = x + 5) Bucket.timestamp _).mpr hc
  rw [h] at h2
  have h3 := List.chain'_cons.mp h2
  omega

/-- The positive denominator of the least-squares slope for series of at
least two points: `∑ (i - m)^2` over `i = 0, …, k+1` is positive. -/
theorem sq_offset_sum_pos (m : ℚ) : ∀ k : ℕ,
    0 < ((List.range (k + 2)).map (fun i : ℕ => ((i : ℚ) - m) ^ 2)).sum := by
  intro k
  induction k with
  | zero =>
    simp [List.range_succ]
    nlinarith [sq_nonneg (m - 1/2)]
  | succ k ih =>
    rw [show k + 1 + 2 = (k + 2) + 1 from rfl, List.range_succ, List.map_append,
      List.sum_append]
    have h2 : (0 : ℚ) ≤ (((k + 2 : ℕ) : ℚ) - m) ^ 2 := sq_nonneg _
    simp only [List.map_cons, List.map_nil, List.sum_cons, List.sum_nil]
    linarith

/-- For two or more points the zero-denominator guard of the implementation
never fires, so the computed slope is the plain least-squares slope. -/
theorem trendSlope_eq_olsSlope (vs : List ℚ) (h : 2 ≤ vs.length) :
    trendSlope vs = olsSlope vs := by
  obtain ⟨k, hk⟩ : ∃ k, vs.length = k + 2 := ⟨vs.length - 2, by omega⟩
  unfold trendSlope olsSlope
  simp only [List.map_map, Function.comp]
  rw [if_pos]
  rw [hk]
  exact ne_of_gt (sq_offset_sum_pos _ k)

/-- C3: `_calculate_trends` returns the explicit insufficient-data marker
below 2 points; otherwise it reports the ordinary-least-squares slope of
value against ordinal index and classifies the direction by the ±0.1
threshold; on the three synthetic series it answers increasing,
decreasing and stable. -/
theorem calculate_trends_correct :
    (∀ vs : List ℚ, vs.length < 2 → calculateTrends vs = TrendResult.insufficientData) ∧
    (∀ vs : List ℚ, 2 ≤ vs.length →
      calculateTrends vs =
        TrendResult.stats
          (if olsSlope vs > 1 / 10 then "increasing"
           else if olsSlope vs < -(1 / 10) then "decreasing" else "stable")
          (olsSlope vs) (vs.getLast?.getD 0) (vs.sum / (vs.length : ℚ))
          (listMin vs) (listMax vs)) ∧
    (calculateTrends [10, 20, 30, 40, 50]).direction = "increasing" ∧
    (calculateTrends [50, 40, 30, 20, 10]).direction = "decreasing" ∧
    (calculateTrends [30, 30, 30, 30, 30]).direction = "stable" := by
  refine ⟨?_, ?_, ?_, ?_, ?_⟩
  · intro vs h
    unfold calculateTrends
    rw [if_pos h]
  · intro vs h
    unfold calculateTrends
    rw [if_neg (by omega)]
    simp only [trendSlope_eq_olsSlope vs h]
  · norm_num [calculateTrends, trendSlope, TrendResult.direction, List.range_succ]
  · norm_num [calculateTrends, trendSlope, TrendResult.direction, List.range_succ]
  · norm_num [calculateTrends, trendSlope, TrendResult.direction, List.range_succ]

/-- Witness for C3 at concrete inputs. -/
theorem calculate_trends_correct_witness :
    calculateTrends [(7 : ℚ)] = TrendResult.insufficientData ∧
    calculateTrends [(0 : ℚ), 1] =
      TrendResult.stats
        (if olsSlope [(0 : ℚ), 1] > 1 / 10 then "increasing"
         else if olsSlope [(0 : ℚ), 1] < -(1 / 10) then "decreasing" else "stable")
        (olsSlope [(0 : ℚ), 1]) (([(0 : ℚ), 1]).getLast?.getD 0)
        (([(0 : ℚ), 1]).sum / (([(0 : ℚ), 1]).length : ℚ))
        (listMin [(0 : ℚ), 1]) (listMax [(0 : ℚ), 1]) :=
  ⟨calculate_trends_correct.1 [7] (by simp),
   calculate_trends_correct.2.1 [0, 1] (by simp)⟩


theorem calculatePredictions_short (data : List (ℤ × ℚ)) (h : data.length < 5) :
    calculatePredictions data = [] := by
  unfold calculatePredictions
  rw [if_pos h]

theorem calculatePredictions_length (data : List (ℤ × ℚ)) (h : 5 ≤ data.length) :
    (calculatePredictions data).length = 24 := by
  unfold calculatePredictions
  rw [if_neg (by omega)]
  simp

theorem predWindow_getLast (values : List ℚ) (h : 5 ≤ values.length) :
    (values.drop (values.length - predWindowSize values.length)).getLast? =
      values.getLast? := by
  rw [List.getLast?_drop, if_neg]
  have hw : 2 ≤ predWindowSize values.length := by
    unfold predWindowSize; omega
  omega

theorem calculatePredictions_get (data : List (ℤ × ℚ)) (h : 5 ≤ data.length)
    (j : ℕ) (hj : j < 24) :
    (calculatePredictions data)[j]? =
      some { timestamp := (data.getLast?.getD (0, 0)).1 + 60 * ((j : ℤ) + 1)
             predicted_value :=
               max 0 ((data.map Prod.snd).getLast?.getD 0 +
                 predDelta (data.map Prod.snd) * ((j : ℚ) + 1))
             confidence := max (1 / 10) (1 - ((j : ℚ) + 1) * (1 / 20)) } := by
  unfold calculatePredictions
  rw [if_neg (by omega)]
  rw [List.getElem?_map, List.getElem?_range hj]
  simp only [Option.map_some', Option.some.injEq]
  have hlast : ((data.map Prod.snd).drop ((data.map Prod.snd).length -
      predWindowSize (data.map Prod.snd).length)).getLast?.getD 0 =
      (data.map Prod.snd).getLast?.getD 0 := by
    rw [predWindow_getLast _ (by simpa using h)]
  simp only [Prediction.mk.injEq, List.length_map] at *
  refine ⟨by push_cast; ring, ?_, by push_cast; ring_nf⟩
  unfold predDelta
  simp only [List.length_map]
  rw [hlast]
  push_cast
  ring_nf


theorem calculate_predictions_correct :
    (∀ data : List (ℤ × ℚ), data.length < 5 → calculatePredictions data = []) ∧
    (∀ data : List (ℤ × ℚ), 5 ≤ data.length →
      (calculatePredictions data).length = 24 ∧
      ∀ j : ℕ, j < 24 →
        (calculatePredictions data)[j]? =
          some { timestamp := (data.getLast?.getD (0, 0)).1 + 60 * ((j : ℤ) + 1)
                 predicted_value :=
                   max 0 ((data.map Prod.snd).getLast?.getD 0 +
                     predDelta (data.map Prod.snd) * ((j : ℚ) + 1))
                 confidence := max (1 / 10) (1 - ((j : ℚ) + 1) * (1 / 20)) }) :=
  ⟨calculatePredictions_short, fun data h =>
    ⟨calculatePredictions_length data h, calculatePredictions_get data h⟩⟩

theorem calculate_predictions_correct_witness :
    calculatePredictions [((0 : ℤ), (1 : ℚ)), (1, 1)] = [] ∧
    (calculatePredictions [((0 : ℤ), (0 : ℚ)), (1, 1), (2, 2), (3, 3), (4, 4)]).length = 24 :=
  ⟨calculate_predictions_correct.1 _ (by simp),
   (calculate_predictions_correct.2 _ (by simp)).1⟩

theorem predDelta_replicate (V : ℚ) : predDelta (List.replicate 10 V) = 0 := by
  have h5 : predWindowSize (List.replicate 10 V).length = 5 := by
    simp [predWindowSize]
  unfold predDelta
  rw [h5]
  norm_num [show (List.replicate 10 V).drop 5 = [V, V, V, V, V] from rfl]


theorem predictions_const_correct (V : ℚ) (h0 : 0 ≤ V) :
    (calculatePredictions ((List.range 10).map (fun k : ℕ => ((k : ℤ), V)))).length = 24 ∧
    (∀ j : ℕ, j < 24 →
      ((calculatePredictions ((List.range 10).map (fun k : ℕ => ((k : ℤ), V))))[j]?).map
        Prediction.predicted_value = some V) ∧
    (∀ j : ℕ, j < 24 →
      ((calculatePredictions ((List.range 10).map (fun k : ℕ => ((k : ℤ), V))))[j]?).map
        Prediction.confidence = some (max (1 / 10) (1 - ((j : ℚ) + 1) * (1 / 20)))) ∧
    (∀ j : ℕ, j + 1 < 18 →
      max (1 / 10 : ℚ) (1 - ((j : ℚ) + 1) * (1 / 20)) >
        max (1 / 10) (1 - (((j : ℚ) + 1) + 1) * (1 / 20))) ∧
    (∀ j : ℕ, 17 ≤ j → j < 24 →
      ((calculatePredictions ((List.range 10).map (fun k : ℕ => ((k : ℤ), V))))[j]?).map
        Prediction.confidence = some (1 / 10)) := by
  have hvals : ((List.range 10).map (fun k : ℕ => ((k : ℤ), V))).map Prod.snd =
      List.replicate 10 V := rfl
  have hget := calculatePredictions_get ((List.range 10).map (fun k : ℕ => ((k : ℤ), V)))
    (by simp)
  refine ⟨calculatePredictions_length _ (by simp), ?_, ?_, ?_, ?_⟩
  · intro j hj
    rw [hget j hj]
    simp only [Option.map_some']
    congr 1
    rw [hvals, predDelta_replicate]
    have hV : (List.replicate 10 V).getLast?.getD 0 = V := rfl
    rw [hV]
    simp [max_eq_right h0]
  · intro j hj
    rw [hget j hj]
    simp
  · intro j hj
    have hj' : (j : ℚ) ≤ 16 := by exact_mod_cast (by omega : j ≤ 16)
    have hcur : (1 / 10 : ℚ) < 1 - ((j : ℚ) + 1) * (1 / 20) := by linarith
    rw [max_eq_right hcur.le]
    apply max_lt
    · linarith
    · linarith
  · intro j hj1 hj2
    rw [hget j hj2]
    have hj' : (17 : ℚ) ≤ (j : ℚ) := by exact_mod_cast hj1
    have hfloor : 1 - ((j : ℚ) + 1) * (1 / 20) ≤ 1 / 10 := by linarith
    simp only [Option.map_some']
    congr 1
    exact max_eq_left hfloor

theorem predictions_const_correct_witness :
    (0 : ℚ) ≤ 2 ∧
    (calculatePredictions ((List.range 10).map (fun k : ℕ => ((k : ℤ), (2 : ℚ))))).length = 24 ∧
    ((calculatePredictions ((List.range 10).map (fun k : ℕ => ((k : ℤ), (2 : ℚ)))))[0]?).map
      Prediction.predicted_value = some 2 :=
  ⟨by norm_num, (predictions_const_correct 2 (by norm_num)).1,
   (predictions_const_correct 2 (by norm_num)).2.1 0 (by norm_num)⟩

theorem predictions_confidence_counterexample :
    ¬ ((calculatePredictions ((List.range 10).map (fun k : ℕ => ((k : ℤ), (1 : ℚ))))).map
        Prediction.confidence).Chain' (fun a b => a > b) := by
  intro hc
  have hlen : ((calculatePredictions ((List.range 10).map (fun k : ℕ =>
      ((k : ℤ), (1 : ℚ))))).map Prediction.confidence).length = 24 := by
    rw [List.length_map, calculatePredictions_length _ (by simp)]
  have h17 : ((calculatePredictions ((List.range 10).map (fun k : ℕ =>
      ((k : ℤ), (1 : ℚ))))).map Prediction.confidence)[17]? = some (1 / 10) := by
    rw [List.getElem?_map, calculatePredictions_get _ (by simp) 17 (by norm_num)]
    simp only [Option.map_some']
    congr 1
    push_cast
    norm_num
  have h18 : ((calculatePredictions ((List.range 10).map (fun k : ℕ =>
      ((k : ℤ), (1 : ℚ))))).map Prediction.confidence)[18]? = some (1 / 10) := by
    rw [List.getElem?_map, calculatePredictions_get _ (by simp) 18 (by norm_num)]
    simp only [Option.map_some']
    congr 1
    push_cast
    exact max_eq_left (by norm_num)
  have hc' := List.chain'_iff_get.mp hc 17 (by omega)
  have e17 : ((calculatePredictions ((List.range 10).map (fun k : ℕ =>
      ((k : ℤ), (1 : ℚ))))).map Prediction.confidence).get ⟨17, by omega⟩ = 1 / 10 := by
    have := List.getElem?_eq_getElem (show 17 < ((calculatePredictions ((List.range 10).map
      (fun k : ℕ => ((k : ℤ), (1 : ℚ))))).map Prediction.confidence).length by omega)
    rw [h17] at this
    simpa using this.symm
  have e18 : ((calculatePredictions ((List.range 10).map (fun k : ℕ =>
      ((k : ℤ), (1 : ℚ))))).map Prediction.confidence).get ⟨17 + 1, by omega⟩ = 1 / 10 := by
    have := List.getElem?_eq_getElem (show 18 < ((calculatePredictions ((List.range 10).map
      (fun k : ℕ => ((k : ℤ), (1 : ℚ))))).map Prediction.confidence).length by omega)
    rw [h18] at this
    simpa using this.symm
  rw [e17, e18] at hc'
  exact absurd hc' (lt_irrefl _)


theorem mem_insertByTs (m a : MetricRec) (l : List MetricRec) :
    a ∈ insertByTs m l ↔ a = m ∨ a ∈ l := by
  induction l with
  | nil => simp [insertByTs]
  | cons x xs ih =>
    unfold insertByTs
    by_cases h : m.timestamp < x.timestamp
    · rw [if_pos h]; simp [List.mem_cons]
    · rw [if_neg h]; simp [List.mem_cons, ih]; tauto

theorem mem_sortByTs (a : MetricRec) (l : List MetricRec) : a ∈ sortByTs l ↔ a ∈ l := by
  unfold sortByTs
  induction l with
  | nil => simp
  | cons x xs ih => simp [List.foldr_cons, mem_insertByTs, ih]

/-- C7: every record returned by a database query whose tag filter is
non-trivially constrained carries all of the filter's key/value pairs; in
particular a query filtered on `node_id = "n1"` never returns a row
tagged `node_id = "n2"`. -/
theorem query_database_tag_filter (db : List MetricRec) (measurement : String)
    (filt : List (String × String)) (startT endT : ℤ) :
    (∀ r ∈ queryDatabase db measurement filt startT endT,
      ∀ kv ∈ filt, r.tags.lookup kv.1 = some kv.2) ∧
    (∀ r ∈ queryDatabase db measurement [("node_id", "n1")] startT endT,
      r.tags.lookup "node_id" ≠ some "n2") := by
  have main : ∀ (f : List (String × String)),
      ∀ r ∈ queryDatabase db measurement f startT endT,
        ∀ kv ∈ f, r.tags.lookup kv.1 = some kv.2 := by
    intro f r hr kv hkv
    unfold queryDatabase at hr
    simp only [List.mem_flatMap] at hr
    obtain ⟨m, hm, hrm⟩ := hr
    have hm2 := (mem_sortByTs m _).mp hm
    have hmatch : tagMatch m.tags f = true := (List.mem_filter.mp hm2).2
    have htags : r.tags = m.tags := by
      simp only [List.mem_map] at hrm
      obtain ⟨fv, _, hfv⟩ := hrm
      rw [← hfv]
    rw [htags]
    have := List.all_eq_true.mp hmatch kv hkv
    exact eq_of_beq this
  refine ⟨main filt, fun r hr => ?_⟩
  have h1 := main [("node_id", "n1")] r hr ("node_id", "n1") (List.mem_singleton.mpr rfl)
  rw [h1]
  simp

/-- Witness for C7 at a concrete database. -/
theorem query_database_tag_filter_witness :
    ({ timestamp := 0, value := 1, field := "ready",
       tags := [("node_id", "n1")] } : Row) ∈
      queryDatabase
        [({ measurement := "node_status", tags := [("node_id", "n1")],
            fields := [("ready", 1)], timestamp := 0 } : MetricRec),
         { measurement := "node_status", tags := [("node_id", "n2")],
           fields := [("ready", 1)], timestamp := 0 }]
        "node_status" [("node_id", "n1")] 0 10 ∧
    ({ timestamp := 0, value := 1, field := "ready",
       tags := [("node_id", "n1")] } : Row).tags.lookup "node_id" ≠ some "n2" := by
  constructor
  · show _ ∈ _
    simp [queryDatabase, sortByTs, insertByTs, tagMatch]
  · exact (query_database_tag_filter
      [⟨"node_status", [("node_id", "n1")], [("ready", 1)], 0⟩,
       ⟨"node_status", [("node_id", "n2")], [("ready", 1)], 0⟩]
      "node_status" [("node_id", "n1")] 0 10).2 _
      (by simp [queryDatabase, sortByTs, insertByTs, tagMatch])


/-- Counterexample to C6 as stated: the token `"abch"` ends with the
recognized suffix `h`, so `int("abc")` is attempted and raises a
`ValueError` (modelled as `none`) instead of resolving to the 24-hour
default; likewise `"abcm"` as a granularity raises instead of defaulting
to 5 minutes. -/
theorem parse_malformed_counterexample :
    parseTimeRange "abch" = none ∧ parseTimeRange "abch" ≠ some 1440 ∧
    parseGranularity "abcm" = none ∧ parseGranularity "abcm" ≠ some 5 := by
  refine ⟨rfl, ?_, rfl, ?_⟩
  · simp [show parseTimeRange "abch" = none from rfl]
  · simp [show parseGranularity "abcm" = none from rfl]

/-- C6 (corrected): only tokens whose final character is not a recognized
suffix fall back to the defaults (24 h window, 5 min granularity) without
error; a token with a recognized suffix but a non-numeric prefix (such as
`"abch"`) raises instead. -/
theorem parse_default_fallback :
    (∀ s : String, strEndsWith s 'h' = false → strEndsWith s 'd' = false →
      strEndsWith s 'w' = false → parseTimeRange s = some 1440) ∧
    (∀ s : String, strEndsWith s 'm' = false → strEndsWith s 'h' = false →
      parseGranularity s = some 5) ∧
    parseTimeRange "xx" = some 1440 ∧ parseGranularity "xx" = some 5 := by
  refine ⟨?_, ?_, rfl, rfl⟩
  · intro s h1 h2 h3
    simp [parseTimeRange, h1, h2, h3]
  · intro s h1 h2
    simp [parseGranularity, h1, h2]

/-- Witness for C6's corrected theorem at a concrete token. -/
theorem parse_default_fallback_witness :
    strEndsWith "xx" 'h' = false ∧ parseTimeRange "xx" = some 1440 ∧
    parseGranularity "xx" = some 5 :=
  ⟨rfl, parse_default_fallback.1 "xx" rfl rfl rfl, parse_default_fallback.2.1 "xx" rfl rfl⟩


/-- One stored `service_health` observation for service `s1`. -/
def svcHealthRec (t : ℤ) (v : ℚ) : MetricRec :=
  { measurement := "service_health"
    tags := [("service_name", "svc"), ("service_id", "s1")]
    fields := [("healthy", v)]
    timestamp := t }

/-- Four healthy samples and one unhealthy sample within a 24 h window,
with the unhealthy sample sharing a 5-minute bucket with a healthy one. -/
def clusteredHealthDb : List MetricRec :=
  [svcHealthRec 0 1, svcHealthRec 1 0, svcHealthRec 5 1, svcHealthRec 10 1, svcHealthRec 15 1]

/-- Four healthy samples and one unhealthy sample, each in its own
5-minute bucket. -/
def spacedHealthDb : List MetricRec :=
  [svcHealthRec 0 1, svcHealthRec 5 1, svcHealthRec 10 1, svcHealthRec 15 1, svcHealthRec 20 0]

set_option maxRecDepth 20000 in
theorem service_uptime_counterexample :
    (calculateServicePerformance []
      (aggregateAt
        (queryDatabase clusteredHealthDb "service_health" [("service_id", "s1")] 0 1440)
        5 0 1440)).uptime_percentage = 175 / 2 ∧
    (175 / 2 : ℚ) ≠ 80 := by
  constructor
  · have h1 : aggregateAt
        (queryDatabase clusteredHealthDb "service_health" [("service_id", "s1")] 0 1440)
        5 0 1440 =
      [{ timestamp := 0, value := listMean [1, 0], min := listMin [1, 0],
         max := listMax [1, 0], count := 2 },
       { timestamp := 5, value := listMean [1], min := listMin [1],
         max := listMax [1], count := 1 },
       { timestamp := 10, value := listMean [1], min := listMin [1],
         max := listMax [1], count := 1 },
       { timestamp := 15, value := listMean [1], min := listMin [1],
         max := listMax [1], count := 1 }] := rfl
    rw [h1]
    simp [calculateServicePerformance, listMean]
    norm_num
  · norm_num

set_option maxRecDepth 20000 in
theorem service_uptime_correct :
    (calculateServicePerformance []
      (aggregateAt
        (queryDatabase spacedHealthDb "service_health" [("service_id", "s1")] 0 1440)
        5 0 1440)).uptime_percentage = 80 ∧
    summaryUptime
      (queryDatabase clusteredHealthDb "service_health" [("service_id", "s1")] 0 1440) = 80 ∧
    summaryUptime
      (queryDatabase spacedHealthDb "service_health" [("service_id", "s1")] 0 1440) = 80 := by
  refine ⟨?_, ?_, ?_⟩
  · have h1 : aggregateAt
        (queryDatabase spacedHealthDb "service_health" [("service_id", "s1")] 0 1440)
        5 0 1440 =
      [{ timestamp := 0, value := listMean [1], min := listMin [1],
         max := listMax [1], count := 1 },
       { timestamp := 5, value := listMean [1], min := listMin [1],
         max := listMax [1], count := 1 },
       { timestamp := 10, value := listMean [1], min := listMin [1],
         max := listMax [1], count := 1 },
       { timestamp := 15, value := listMean [1], min := listMin [1],
         max := listMax [1], count := 1 },
       { timestamp := 20, value := listMean [0], min := listMin [0],
         max := listMax [0], count := 1 }] := rfl
    rw [h1]
    simp [calculateServicePerformance, listMean]
    norm_num
  · have h2 : queryDatabase clusteredHealthDb "service_health" [("service_id", "s1")] 0 1440 =
      [{ timestamp := 0, value := 1, field := "healthy",
         tags := [("service_name", "svc"), ("service_id", "s1")] },
       { timestamp := 1, value := 0, field := "healthy",
         tags := [("service_name", "svc"), ("service_id", "s1")] },
       { timestamp := 5, value := 1, field := "healthy",
         tags := [("service_name", "svc"), ("service_id", "s1")] },
       { timestamp := 10, value := 1, field := "healthy",
         tags := [("service_name", "svc"), ("service_id", "s1")] },
       { timestamp := 15, value := 1, field := "healthy",
         tags := [("service_name", "svc"), ("service_id", "s1")] }] := rfl
    rw [h2]
    simp [summaryUptime]
    norm_num
  · have h3 : queryDatabase spacedHealthDb "service_health" [("service_id", "s1")] 0 1440 =
      [{ timestamp := 0, value := 1, field := "healthy",
         tags := [("service_name", "svc"), ("service_id", "s1")] },
       { timestamp := 5, value := 1, field := "healthy",
         tags := [("service_name", "svc"), ("service_id", "s1")] },
       { timestamp := 10, value := 1, field := "healthy",
         tags := [("service_name", "svc"), ("service_id", "s1")] },
       { timestamp := 15, value := 1, field := "healthy",
         tags := [("service_name", "svc"), ("service_id", "s1")] },
       { timestamp := 20, value := 0, field := "healthy",
         tags := [("service_name", "svc"), ("service_id", "s1")] }] := rfl
    rw [h3]
    simp [summaryUptime]
    norm_num


/-- Three stored points of measurement `m`, each with fields `{a:1, b:2}`. -/
def exportDb : List MetricRec :=
  [{ measurement := "m", tags := [], fields := [("a", 1), ("b", 2)], timestamp := 0 },
   { measurement := "m", tags := [], fields := [("a", 1), ("b", 2)], timestamp := 1 },
   { measurement := "m", tags := [], fields := [("a", 1), ("b", 2)], timestamp := 2 }]

theorem export_csv_counterexample :
    (csvLines (queryDatabase exportDb "m" [] 0 10)).head? =
      some "timestamp,value,field,tags" ∧
    "timestamp,value,field,tags" ≠ "a,b" ∧
    (csvLines (queryDatabase exportDb "m" [] 0 10)).length = 7 ∧ (7 : ℕ) ≠ 1 + 3 := by
  refine ⟨rfl, by decide, rfl, by decide⟩

theorem export_csv_correct :
    (csvLines (queryDatabase exportDb "m" [] 0 10)).head? =
      some "timestamp,value,field,tags" ∧
    (csvLines (queryDatabase exportDb "m" [] 0 10)).length = 7 ∧
    (queryDatabase exportDb "m" [] 0 10).map Row.value = [1, 2, 1, 2, 1, 2] ∧
    (queryDatabase exportDb "m" [] 0 10).map Row.field = ["a", "b", "a", "b", "a", "b"] ∧
    formatAsCsv (queryDatabase exportDb "m" [] 0 10) =
      String.intercalate "\n" (csvLines (queryDatabase exportDb "m" [] 0 10)) := by
  exact ⟨rfl, rfl, rfl, rfl, rfl⟩

/-- C10: `collect_metrics` reports success with the collected-point count
regardless of what the storage write does, because every store method
swallows its exceptions. -/
theorem collect_metrics_swallows_store_errors :
    (∀ (backend : BackendKind) (sys svc node : List MetricRec)
        (wdb winf : List MetricRec → Except String Unit)
        (wprom : List MetricRec → List MetricRec → List MetricRec → Except String Unit),
      collectMetrics backend sys svc node wdb winf wprom =
        .ok { success := true, metrics_collected := (sys ++ svc ++ node).length }) ∧
    (∀ (metrics : List MetricRec) (e : String),
      storeToDatabase (fun _ => .error e) metrics = .ok () ∧
      storeToInfluxdb (fun _ => .error e) metrics = .ok ()) ∧
    (∀ (s n m : List MetricRec) (e : String),
      storeToPrometheus (fun _ _ _ => .error e) s n m = .ok ()) ∧
    collectMetrics .database []
      [{ measurement := "m", tags := [], fields := [], timestamp := 0 }] []
      (fun _ => .error "db down") (fun _ => .ok ()) (fun _ _ _ => .ok ()) =
      .ok { success := true, metrics_collected := 1 } := by
  have hdb : ∀ (w : List MetricRec → Except String Unit) (l : List MetricRec),
      storeToDatabase w l = .ok () := by
    intro w l
    unfold storeToDatabase
    cases w l <;> rfl
  have hinf : ∀ (w : List MetricRec → Except String Unit) (l : List MetricRec),
      storeToInfluxdb w l = .ok () := by
    intro w l
    unfold storeToInfluxdb
    cases w l <;> rfl
  have hprom : ∀ (w : List MetricRec → List MetricRec → List MetricRec → Except String Unit)
      (s n m : List MetricRec), storeToPrometheus w s n m = .ok () := by
    intro w s n m
    unfold storeToPrometheus
    cases w s n m <;> rfl
  refine ⟨?_, fun metrics e => ⟨hdb _ _, hinf _ _⟩, fun s n m e => hprom _ _ _ _, ?_⟩
  · intro backend sys svc node wdb winf wprom
    cases backend <;>
      simp [collectMetrics, hdb, hinf, hprom, Except.bind]
  · simp [collectMetrics, hdb, Except.bind]

end Dashboard
